import Mathlib

/-!
Verification of the `dumb_ptr` reference-counted smart pointer
(`src/dumb_ptr.h`): a shallow embedding of the three lifecycle operations
`shared_ptr_init`, `shared_ptr_copy` and `shared_ptr_cleanup`, together with
theorems about counter evolution, deallocation order and the effects of
each operation on the handle fields.

Modelling conventions:
  * Pointers are `Nat` addresses; the null pointer is `0` and a `malloc`
    outcome is `Option Nat` (`none` = allocation failure / NULL).
  * The `uint32_t` reference counter is a `Nat` kept below `2 ^ 32`; every
    update reduces modulo `2 ^ 32` exactly where the C arithmetic wraps.
  * A destructor callback (`destructor_t`) is identified by an abstract
    token, so a handle field of C type `destructor_t` becomes `Option Nat`
    (`none` = NULL function pointer).
  * Heap effects (allocation, stores through `refcount`, `free` calls,
    destructor invocations) are recorded in an event list in the order the
    C statements execute them, so ordering claims become claims about
    list positions.
-/

namespace DumbPtr

/-- Number of values of the C type `uint32_t`. -/
def u32Mod : Nat := 2 ^ 32

/-- Reduction of a `Nat` to a `uint32_t` value (wrap modulo `2 ^ 32`). -/
def u32 (n : Nat) : Nat := n % u32Mod

/-- The `shared_ptr_t` struct of `src/dumb_ptr.h` (lines 22-26):
`uint32_t *refcount; void *ptr; destructor_t ptr_destructor;`.
`refcount` holds the address of the counter allocation (0 = NULL). -/
structure shared_ptr where
  refcount : Nat
  ptr : Nat
  ptr_destructor : Option Nat
deriving DecidableEq

/-- One observable heap effect of an operation, in C statement order. -/
inductive Event where
  /-- the `malloc(sizeof(uint32_t))` call in `shared_ptr_init`; the flag
  records whether it succeeded -/
  | malloc_refcount (ok : Bool)
  /-- a store through the shared counter pointer (`*refcount = v`) -/
  | store_refcount (v : Nat)
  /-- `free(this->refcount)` -/
  | free_refcount
  /-- `this->ptr_destructor(this->ptr)` for destructor token `d` -/
  | call_destructor (d : Nat) (p : Nat)
  /-- `free(this->ptr)` -/
  | free_ptr (p : Nat)
deriving DecidableEq

/-- Whether an event deallocates heap memory (`free` of counter or payload). -/
def Event.isFree : Event → Bool
  | .free_refcount => true
  | .free_ptr _ => true
  | _ => false

/-- Whether an event is a destructor-callback invocation. -/
def Event.isDestructorCall : Event → Bool
  | .call_destructor _ _ => true
  | _ => false

/-- Whether an event is a heap allocation. -/
def Event.isAlloc : Event → Bool
  | .malloc_refcount _ => true
  | _ => false

/-- Whether an event frees or invokes a callback on the payload at
address `p` (the only ways the source ever touches the payload). -/
def Event.touchesPayload : Event → Nat → Bool
  | .free_ptr q, p => q == p
  | .call_destructor _ q, p => q == p
  | _, _ => false

/-- Outcome of `shared_ptr_init`: the C return value, the written cell,
the value stored in the fresh counter allocation (`none` when allocation
failed and no counter exists), and the heap events. -/
structure InitResult where
  ok : Bool
  cell : shared_ptr
  counterStore : Option Nat
  events : List Event
deriving DecidableEq

/-- Embedding of `shared_ptr_init` (`src/dumb_ptr.h` lines 35-45).
`self` is the prior content of the cell `this` points to (a stack variable,
so arbitrary); `mallocResult` is the outcome of `malloc(sizeof(uint32_t))`.
The C body assigns `this->ptr` and `this->ptr_destructor` first, then
assigns the `malloc` result to `this->refcount`, returns `false` if it is
NULL, and otherwise stores 1 through it and returns `true`. -/
def shared_ptr_init (self : shared_ptr) (ptr : Nat)
    (ptr_destructor : Option Nat) (mallocResult : Option Nat) : InitResult :=
  let s1 : shared_ptr := { self with ptr := ptr }
  let s2 : shared_ptr := { s1 with ptr_destructor := ptr_destructor }
  match mallocResult with
  | none =>
      { ok := false
        cell := { s2 with refcount := 0 }
        counterStore := none
        events := [.malloc_refcount false] }
  | some addr =>
      { ok := true
        cell := { s2 with refcount := addr }
        counterStore := some 1
        events := [.malloc_refcount true, .store_refcount 1] }

/-- Outcome of `shared_ptr_copy`: the written destination cell, the new
value of the shared counter, and the heap events. -/
structure CopyResult where
  cell : shared_ptr
  refcountVal : Nat
  events : List Event
deriving DecidableEq

/-- Embedding of `shared_ptr_copy` (`src/dumb_ptr.h` lines 52-56).
`self` is the prior content of the destination stack variable `this`
(uninitialized memory, hence arbitrary); `that` is the source handle and
`c` the current value of the shared counter `*that->refcount`. The C body
copies `ptr` and `refcount` — and nothing else — then executes
`*this->refcount += 1` (a `uint32_t` increment, wrapping). -/
def shared_ptr_copy (self that : shared_ptr) (c : Nat) : CopyResult :=
  let s1 : shared_ptr := { self with ptr := that.ptr }
  let s2 : shared_ptr := { s1 with refcount := that.refcount }
  let v : Nat := u32 (c + 1)
  { cell := s2, refcountVal := v, events := [.store_refcount v] }

/-- Outcome of `shared_ptr_cleanup`: the value the decrement stored in the
shared counter, and the heap events in C statement order. -/
structure CleanupResult where
  refcountVal : Nat
  events : List Event
deriving DecidableEq

/-- Embedding of `shared_ptr_cleanup` (`src/dumb_ptr.h` lines 64-76).
`c` is the current value of the shared counter. The C body executes
`*this->refcount -= 1` (wrapping `uint32_t` decrement) and, if the result
is 0: `free(this->refcount)` first, then calls `this->ptr_destructor`
on `this->ptr` when the field is non-NULL, then `free(this->ptr)`. -/
def shared_ptr_cleanup (self : shared_ptr) (c : Nat) : CleanupResult :=
  let v : Nat := u32 (c + (u32Mod - 1))
  if v = 0 then
    { refcountVal := v
      events := [.store_refcount v, .free_refcount] ++
        (match self.ptr_destructor with
         | some d => [.call_destructor d self.ptr]
         | none => []) ++
        [.free_ptr self.ptr] }
  else
    { refcountVal := v, events := [.store_refcount v] }

/-! ### Sequential trace machine for a cell group

A group is created by one successful construction (counter 1, one live
handle) and then evolves by `share` and `release` steps, each performed
on a live handle while the group is alive. The counter evolves exactly as
`shared_ptr_copy` / `shared_ptr_cleanup` update `*refcount`; the live
handle count is the specification-level quantity the invariant claims
track. -/

/-- One group-level operation. -/
inductive Op where
  | share
  | release
deriving DecidableEq

/-- Effect of one operation on the number of live handles. -/
def liveStep (l : Nat) : Op → Nat
  | .share => l + 1
  | .release => l - 1

/-- Effect of one operation on the shared counter: the wrapping increment
performed by `shared_ptr_copy` and the wrapping decrement performed by
`shared_ptr_cleanup` (neither update depends on the handle fields; the
agreement with the source functions is proved in
`counterStep_share_eq_copy` and `counterStep_release_eq_cleanup`). -/
def counterStep (c : Nat) : Op → Nat
  | .share => u32 (c + 1)
  | .release => u32 (c + (u32Mod - 1))

/-- Number of live handles after a trace (construction counts as the
first live handle). -/
def liveAfter (ops : List Op) : Nat := ops.foldl liveStep 1

/-- Value of the shared counter after a trace (construction stores 1). -/
def counterAfter (ops : List Op) : Nat := ops.foldl counterStep 1

/-- A trace is valid from `l` live handles when every operation executes
while at least one handle is live: each `share` reads a live handle and
each `release` is the single release of a live handle. -/
def validFrom : Nat → List Op → Bool
  | _, [] => true
  | l, op :: rest => decide (1 ≤ l) && validFrom (liveStep l op) rest

/-- A valid trace of a group created by one successful construction. -/
def validTrace (ops : List Op) : Bool := validFrom 1 ops

/-! ### A concrete run: construct with a finalizer, share once, release the
original handle, then release the shared copy.

The copy's destination is a fresh stack variable whose prior
`ptr_destructor` bytes are uninitialized; this run models the execution in
which they happen to be NULL (`none`). Payload address 100, destructor
token 7, counter allocation at address 50. -/

/-- Construction step of the concrete run. -/
def c1Init : InitResult := shared_ptr_init ⟨0, 0, none⟩ 100 (some 7) (some 50)

/-- Share step of the concrete run: copy the constructed handle into an
uninitialized destination whose garbage `ptr_destructor` is NULL. -/
def c1Copy : CopyResult := shared_ptr_copy ⟨0, 0, none⟩ c1Init.cell 1

/-- First release of the concrete run, performed by the original handle. -/
def c1Rel1 : CleanupResult := shared_ptr_cleanup c1Init.cell c1Copy.refcountVal

/-- Final release of the concrete run, performed by the shared copy. -/
def c1Rel2 : CleanupResult := shared_ptr_cleanup c1Copy.cell c1Rel1.refcountVal

/-! ### Helper lemmas -/

/-- Numeric value of the `uint32_t` modulus. -/
theorem u32Mod_eq : u32Mod = 4294967296 := by norm_num [u32Mod]

/-- A pre-reduced summand may be dropped under `u32`. -/
theorem u32_add_left (a b : Nat) : u32 (u32 a + b) = u32 (a + b) :=
  (Nat.mod_modEq a u32Mod).add_right b

/-- Wrapping decrement agrees with exact decrement on positive inputs. -/
theorem u32_pred (l : Nat) (h : 1 ≤ l) : u32 (l + (u32Mod - 1)) = u32 (l - 1) := by
  have h1 : 1 ≤ u32Mod := by rw [u32Mod_eq]; omega
  have h2 : l + (u32Mod - 1) = (l - 1) + u32Mod := by omega
  rw [h2]
  exact Nat.add_mod_right (l - 1) u32Mod

/-- The counter value written by `shared_ptr_cleanup` is the wrapping
decrement, on both branches. -/
theorem cleanup_refcountVal (self : shared_ptr) (c : Nat) :
    (shared_ptr_cleanup self c).refcountVal = u32 (c + (u32Mod - 1)) := by
  simp only [shared_ptr_cleanup]
  split <;> rfl

/-- Events of `shared_ptr_cleanup` when the decrement does not reach 0. -/
theorem cleanup_events_pos (self : shared_ptr) (c : Nat)
    (h : u32 (c + (u32Mod - 1)) ≠ 0) :
    (shared_ptr_cleanup self c).events =
      [.store_refcount (u32 (c + (u32Mod - 1)))] := by
  simp only [shared_ptr_cleanup]
  rw [if_neg h]

/-- Events of `shared_ptr_cleanup` when the decrement reaches 0. -/
theorem cleanup_events_zero (self : shared_ptr) (c : Nat)
    (h : u32 (c + (u32Mod - 1)) = 0) :
    (shared_ptr_cleanup self c).events =
      [.store_refcount 0, .free_refcount] ++
        (match self.ptr_destructor with
         | some d => [.call_destructor d self.ptr]
         | none => []) ++
        [.free_ptr self.ptr] := by
  simp only [shared_ptr_cleanup]
  rw [if_pos h, h]

/-- Counter effect of a `share` step. -/
theorem counterStep_share (c : Nat) : counterStep c .share = u32 (c + 1) := rfl

/-- Counter effect of a `release` step. -/
theorem counterStep_release (c : Nat) :
    counterStep c .release = u32 (c + (u32Mod - 1)) := rfl

/-- The trace machine's `share` step is exactly the counter update of
`shared_ptr_copy`, whatever the handles involved. -/
theorem counterStep_share_eq_copy (self that : shared_ptr) (c : Nat) :
    counterStep c .share = (shared_ptr_copy self that c).refcountVal := rfl

/-- The trace machine's `release` step is exactly the counter update of
`shared_ptr_cleanup`, whatever the handle involved. -/
theorem counterStep_release_eq_cleanup (self : shared_ptr) (c : Nat) :
    counterStep c .release = (shared_ptr_cleanup self c).refcountVal := by
  rw [cleanup_refcountVal, counterStep_release]

/-- Along any trace whose every step executes with a live handle, the
counter stays congruent to the live-handle count modulo `2 ^ 32`. -/
theorem counter_tracks_live_from (ops : List Op) :
    ∀ l, validFrom l ops = true →
      List.foldl counterStep (u32 l) ops = u32 (List.foldl liveStep l ops) := by
  induction ops with
  | nil => intro l _; rfl
  | cons op rest ih =>
    intro l hv
    simp only [validFrom] at hv
    rw [Bool.and_eq_true, decide_eq_true_eq] at hv
    obtain ⟨hl, hrest⟩ := hv
    rw [List.foldl_cons, List.foldl_cons]
    cases op with
    | share =>
        have hstep : counterStep (u32 l) .share = u32 (liveStep l .share) := by
          rw [counterStep_share]
          exact u32_add_left l 1
        rw [hstep]
        exact ih (liveStep l .share) hrest
    | release =>
        have hstep : counterStep (u32 l) .release = u32 (liveStep l .release) := by
          rw [counterStep_release, u32_add_left]
          exact u32_pred l hl
        rw [hstep]
        exact ih (liveStep l .release) hrest

/-- Counter after `k` consecutive `share` steps from value `u32 a`. -/
theorem foldl_counterStep_shares (k : Nat) :
    ∀ a, List.foldl counterStep (u32 a) (List.replicate k Op.share) = u32 (a + k) := by
  induction k with
  | zero => intro a; simp
  | succ n ih =>
      intro a
      rw [List.replicate_succ, List.foldl_cons, counterStep_share, u32_add_left]
      rw [ih (a + 1)]
      congr 1
      omega

/-- Live-handle count after `k` consecutive `share` steps. -/
theorem foldl_liveStep_shares (k : Nat) :
    ∀ l, List.foldl liveStep l (List.replicate k Op.share) = l + k := by
  induction k with
  | zero => intro l; simp
  | succ n ih =>
      intro l
      rw [List.replicate_succ, List.foldl_cons]
      show List.foldl liveStep (l + 1) _ = _
      rw [ih (l + 1)]
      omega

/-- Any all-`share` trace from a live group is valid. -/
theorem validFrom_shares (k : Nat) :
    ∀ l, 1 ≤ l → validFrom l (List.replicate k Op.share) = true := by
  induction k with
  | zero => intro l _; rfl
  | succ n ih =>
      intro l hl
      rw [List.replicate_succ]
      simp only [validFrom]
      rw [Bool.and_eq_true, decide_eq_true_eq]
      exact ⟨hl, ih (l + 1) (by omega)⟩

/-! ### Claim theorems -/

/-- C7: a successful construction (counter allocation succeeded at address
`addr`) returns success, stores exactly 1 in the fresh shared counter, and
returns a handle holding the caller-supplied payload pointer and
finalizer. -/
theorem C7_construct_success (self : shared_ptr) (ptr : Nat) (d : Option Nat)
    (addr : Nat) :
    shared_ptr_init self ptr d (some addr) =
      ⟨true, ⟨addr, ptr, d⟩, some 1,
        [.malloc_refcount true, .store_refcount 1]⟩ := rfl

/-- C3 (amended): when counter allocation fails, construction returns
failure and allocates nothing further, but it does mutate the cell: the
payload and finalizer fields are set to the supplied arguments and the
counter field is set to the null pointer before the failure is reported. -/
theorem C3_construct_failure_mutates_cell (self : shared_ptr) (ptr : Nat)
    (d : Option Nat) :
    shared_ptr_init self ptr d none =
      ⟨false, ⟨0, ptr, d⟩, none, [.malloc_refcount false]⟩ := rfl

/-- C3 (counterexample): a failed construction does not leave the cell
unchanged — starting from cell contents ⟨7, 8, some 9⟩, after the failing
call every field of the cell has been overwritten. -/
theorem C3_cell_changed_on_failure :
    (shared_ptr_init ⟨7, 8, some 9⟩ 42 none none).ok = false ∧
    (shared_ptr_init ⟨7, 8, some 9⟩ 42 none none).cell = ⟨0, 42, none⟩ ∧
    ((⟨0, 42, none⟩ : shared_ptr) ≠ ⟨7, 8, some 9⟩) := by decide

/-- C8: when counter allocation fails, construction reports failure and
the caller's payload is untouched: the failing call performs no `free`, no
destructor call, and no operation addressing the payload at all. -/
theorem C8_construct_failure_payload_untouched (self : shared_ptr)
    (ptr : Nat) (d : Option Nat) :
    (shared_ptr_init self ptr d none).ok = false ∧
    (shared_ptr_init self ptr d none).events.all
      (fun e => !(e.touchesPayload ptr) && !e.isFree) = true := ⟨rfl, rfl⟩

/-- C4: the copy constructor writes only the destination's payload pointer
and counter reference; the destination's finalizer field keeps whatever
value it had before (it is not copied from the source handle). -/
theorem C4_copy_leaves_destructor_field (self that : shared_ptr) (c : Nat) :
    (shared_ptr_copy self that c).cell.ptr_destructor = self.ptr_destructor ∧
    (shared_ptr_copy self that c).cell.ptr = that.ptr ∧
    (shared_ptr_copy self that c).cell.refcount = that.refcount :=
  ⟨rfl, rfl, rfl⟩

/-- C6 (amended): a share always succeeds, performs no allocation, gives
the new handle the same payload address, and increments the counter by
exactly 1 whenever the counter is below `2 ^ 32 - 1` (at the maximum it
wraps to 0 instead, see the counterexample). -/
theorem C6_share_updates (self that : shared_ptr) (c : Nat)
    (h : c < u32Mod - 1) :
    (shared_ptr_copy self that c).refcountVal = c + 1 ∧
    (shared_ptr_copy self that c).cell.ptr = that.ptr ∧
    (shared_ptr_copy self that c).events.all (fun e => !e.isAlloc) = true := by
  refine ⟨?_, rfl, rfl⟩
  show u32 (c + 1) = c + 1
  have hm : u32Mod = 4294967296 := u32Mod_eq
  unfold u32
  rw [hm] at h ⊢
  omega

/-- C6 (witness): the amended share theorem evaluated at counter value 1. -/
theorem C6_share_updates_witness :
    (shared_ptr_copy ⟨0, 0, none⟩ ⟨5, 6, some 7⟩ 1).refcountVal = 1 + 1 ∧
    (shared_ptr_copy ⟨0, 0, none⟩ ⟨5, 6, some 7⟩ 1).cell.ptr =
      (⟨5, 6, some 7⟩ : shared_ptr).ptr ∧
    (shared_ptr_copy ⟨0, 0, none⟩ ⟨5, 6, some 7⟩ 1).events.all
      (fun e => !e.isAlloc) = true :=
  C6_share_updates ⟨0, 0, none⟩ ⟨5, 6, some 7⟩ 1 (by decide)

/-- C6 (counterexample): at the maximum counter value `2 ^ 32 - 1` a share
does not increase the counter by 1 — it silently wraps the counter to 0. -/
theorem C6_share_wraps_at_max :
    (shared_ptr_copy ⟨0, 0, none⟩ ⟨5, 6, some 7⟩ (u32Mod - 1)).refcountVal = 0 ∧
    (shared_ptr_copy ⟨0, 0, none⟩ ⟨5, 6, some 7⟩ (u32Mod - 1)).refcountVal ≠
      (u32Mod - 1) + 1 := by decide

/-- C9: a release performed while the counter holds `c` with `2 ≤ c`
(and `c` a representable `uint32_t` value) stores `c - 1` and performs no
deallocation at all: its only heap effect is the decrement store — no
`free` of payload or counter, and no finalizer invocation. -/
theorem C9_release_positive_no_dealloc (self : shared_ptr) (c : Nat)
    (h1 : 2 ≤ c) (h2 : c < u32Mod) :
    (shared_ptr_cleanup self c).refcountVal = c - 1 ∧
    (shared_ptr_cleanup self c).events = [.store_refcount (c - 1)] ∧
    (shared_ptr_cleanup self c).events.all
      (fun e => !e.isFree && !e.isDestructorCall) = true := by
  have hm : u32Mod = 4294967296 := u32Mod_eq
  have hv : u32 (c + (u32Mod - 1)) = c - 1 := by
    unfold u32
    rw [hm] at h2 ⊢
    omega
  have hne : u32 (c + (u32Mod - 1)) ≠ 0 := by
    rw [hv]
    omega
  refine ⟨?_, ?_, ?_⟩
  · rw [cleanup_refcountVal, hv]
  · rw [cleanup_events_pos self c hne, hv]
  · rw [cleanup_events_pos self c hne]
    rfl

/-- C9 (witness): the release theorem evaluated at counter value 5. -/
theorem C9_release_positive_no_dealloc_witness :
    (shared_ptr_cleanup ⟨1, 2, some 3⟩ 5).refcountVal = 5 - 1 ∧
    (shared_ptr_cleanup ⟨1, 2, some 3⟩ 5).events = [.store_refcount (5 - 1)] ∧
    (shared_ptr_cleanup ⟨1, 2, some 3⟩ 5).events.all
      (fun e => !e.isFree && !e.isDestructorCall) = true :=
  C9_release_positive_no_dealloc ⟨1, 2, some 3⟩ 5 (by decide) (by decide)

/-- C2 (amended): on the release that brings the counter to 0 the heap
effects happen in this order: the decrement is stored, then the counter
allocation is freed first, then the finalizer (when present) is invoked
with the payload address, then the payload is freed — all on that same
release call. The finalizer still runs strictly before the payload is
freed, but the counter storage is freed before both, not after them. -/
theorem C2_zero_release_order (self : shared_ptr) (d : Nat)
    (h : self.ptr_destructor = some d) :
    (shared_ptr_cleanup self 1).events =
      [.store_refcount 0, .free_refcount, .call_destructor d self.ptr,
        .free_ptr self.ptr] := by
  have h0 : u32 (1 + (u32Mod - 1)) = 0 := by decide
  rw [cleanup_events_zero self 1 h0, h]
  rfl

/-- C2 (witness): the zero-release order theorem evaluated on the cell
⟨50, 100, some 7⟩. -/
theorem C2_zero_release_order_witness :
    (shared_ptr_cleanup ⟨50, 100, some 7⟩ 1).events =
      [.store_refcount 0, .free_refcount, .call_destructor 7 100,
        .free_ptr 100] :=
  C2_zero_release_order ⟨50, 100, some 7⟩ 7 rfl

/-- C2 (counterexample): on the zero-transition the counter allocation is
freed at position 1 of the event list, strictly before the payload is
freed at position 3 — not after the payload as claimed. -/
theorem C2_counter_freed_before_payload :
    (shared_ptr_cleanup ⟨50, 100, some 7⟩ 1).events =
      [.store_refcount 0, .free_refcount, .call_destructor 7 100,
        .free_ptr 100] ∧
    ∃ i j, i < j ∧
      (shared_ptr_cleanup ⟨50, 100, some 7⟩ 1).events.get? i =
        some .free_refcount ∧
      (shared_ptr_cleanup ⟨50, 100, some 7⟩ 1).events.get? j =
        some (.free_ptr 100) :=
  ⟨by decide, 1, 3, by decide, by decide, by decide⟩

/-- C10: the shared counter is a wrapping 32-bit unsigned integer: a share
sends counter `c` to `(c + 1) mod 2 ^ 32` and a release sends it to
`(c + 2 ^ 32 - 1) mod 2 ^ 32`; in particular a share at the maximum value
`2 ^ 32 - 1` yields 0 and a release at 0 yields `2 ^ 32 - 1`, so neither
operation can produce a negative value. -/
theorem C10_counter_is_u32_wrapping :
    (∀ self that : shared_ptr, ∀ c : Nat,
      (shared_ptr_copy self that c).refcountVal = (c + 1) % 2 ^ 32) ∧
    (∀ self : shared_ptr, ∀ c : Nat,
      (shared_ptr_cleanup self c).refcountVal = (c + (2 ^ 32 - 1)) % 2 ^ 32) ∧
    (shared_ptr_copy ⟨0, 0, none⟩ ⟨0, 0, none⟩ (2 ^ 32 - 1)).refcountVal = 0 ∧
    (shared_ptr_cleanup ⟨0, 0, none⟩ 0).refcountVal = 2 ^ 32 - 1 := by
  refine ⟨fun self that c => rfl, fun self c => cleanup_refcountVal self c,
    by decide, by decide⟩

/-- C1 (code bug): in the concrete run `c1Init` / `c1Copy` / `c1Rel1` /
`c1Rel2` — construct with finalizer token 7, share once into a stack cell
whose uninitialized finalizer bytes happen to be NULL, release the
original handle, then release the copy — the counter reaches 0 and both
deallocations happen on the final release, yet the finalizer supplied at
construction runs zero times, not exactly once: the copy never received
the finalizer field, so the final release consults its own NULL field. -/
theorem C1_finalizer_skipped_when_copy_releases_last :
    c1Init.ok = true ∧
    c1Init.cell.ptr_destructor = some 7 ∧
    c1Copy.refcountVal = 2 ∧
    c1Rel1.refcountVal = 1 ∧
    c1Rel1.events.all (fun e => !e.isFree && !e.isDestructorCall) = true ∧
    c1Rel2.refcountVal = 0 ∧
    (c1Rel2.events.filter Event.isFree).length = 2 ∧
    ((c1Rel1.events ++ c1Rel2.events).filter Event.isDestructorCall).length
      = 0 := by decide

/-- C5 (amended): along every valid sequential trace — a successful
construction followed by shares and releases each performed on a live
handle — the shared counter equals the number of live handles reduced
modulo `2 ^ 32`; in particular it equals the live-handle count exactly
whenever that count is below `2 ^ 32` (and, being unsigned, it is never
negative). -/
theorem C5_counter_tracks_live_mod_u32 (ops : List Op)
    (h : validTrace ops = true) :
    counterAfter ops = u32 (liveAfter ops) ∧
    (liveAfter ops < u32Mod → counterAfter ops = liveAfter ops) := by
  have h1 : u32 1 = 1 := by decide
  have main : counterAfter ops = u32 (liveAfter ops) := by
    have hx := counter_tracks_live_from ops 1 h
    rw [h1] at hx
    exact hx
  refine ⟨main, fun hlt => ?_⟩
  rw [main]
  exact Nat.mod_eq_of_lt hlt

/-- C5 (witness): the counter/live-handle invariant evaluated on the trace
share, release, share. -/
theorem C5_counter_tracks_live_mod_u32_witness :
    counterAfter [Op.share, Op.release, Op.share] =
      u32 (liveAfter [Op.share, Op.release, Op.share]) ∧
    (liveAfter [Op.share, Op.release, Op.share] < u32Mod →
      counterAfter [Op.share, Op.release, Op.share] =
        liveAfter [Op.share, Op.release, Op.share]) :=
  C5_counter_tracks_live_mod_u32 [Op.share, Op.release, Op.share] (by decide)

/-- C5 (counterexample): after the valid trace of `2 ^ 32 - 1` consecutive
shares there are `2 ^ 32` live handles but the wrapped counter holds 0, so
the counter does not always equal the number of live handles. -/
theorem C5_counter_diverges_from_live_at_wrap :
    validTrace (List.replicate (u32Mod - 1) Op.share) = true ∧
    liveAfter (List.replicate (u32Mod - 1) Op.share) = u32Mod ∧
    counterAfter (List.replicate (u32Mod - 1) Op.share) = 0 ∧
    counterAfter (List.replicate (u32Mod - 1) Op.share) ≠
      liveAfter (List.replicate (u32Mod - 1) Op.share) := by
  have hm : u32Mod = 4294967296 := u32Mod_eq
  have hval : validTrace (List.replicate (u32Mod - 1) Op.share) = true :=
    validFrom_shares (u32Mod - 1) 1 (by omega)
  have hlive : liveAfter (List.replicate (u32Mod - 1) Op.share) = u32Mod := by
    show List.foldl liveStep 1 (List.replicate (u32Mod - 1) Op.share) = u32Mod
    rw [foldl_liveStep_shares (u32Mod - 1) 1]
    omega
  have hcount : counterAfter (List.replicate (u32Mod - 1) Op.share) = 0 := by
    have hk := foldl_counterStep_shares (u32Mod - 1) 1
    have e1 : u32 1 = 1 := by decide
    rw [e1] at hk
    show List.foldl counterStep 1 (List.replicate (u32Mod - 1) Op.share) = 0
    rw [hk]
    decide
  refine ⟨hval, hlive, hcount, ?_⟩
  rw [hcount, hlive, hm]
  decide

end DumbPtr
